import Mathlib

/-!
Shallow embedding of `core/train.py` (`train_net`) from the Pix2Vox
training repository, together with proofs about its control flow.

Modelling conventions:
* External collaborators (datasets, tensors, the two networks, the BCE
  loss, the validation routine `test_net`, the RNG draw) are parameters
  of the embedded functions: tensors are abstract `Nat` identifiers,
  scores and losses are rationals (`ℚ`), the networks are abstract
  functions on tensor identifiers.
* Side effects (summary writing, checkpoint saving, directory creation,
  weight initialization, optimizer steps, ...) are recorded as an event
  trace (`Ev`), in source order.
* `torch.optim.Adam` / `torch.optim.SGD` are external library
  constructors; only their keyword-argument interface is modelled
  (from PyTorch's documented signatures): `Adam` accepts `betas`,
  `SGD` accepts `momentum` but not `betas`.
-/

namespace Pix2Vox

/-- Identifies one of the two networks of the model pair
(`generator` / `image_encoder` in `core/train.py`). -/
inductive Model where
  | generator
  | imageEncoder
deriving DecidableEq

/-- The two checkpoint files written by `train_net` (lines 185–197):
the periodic file `'ckpt-epoch-%04d.pth.tar' % (epoch_idx + 1)` and the
fixed-name best file `'best-ckpt.pth.tar'`.  The periodic file name always
starts with `ckpt-epoch-`, so the two names never coincide; we keep them
as distinct constructors. -/
inductive CkptFile where
  | periodic (epoch : Nat)
  | best
deriving DecidableEq

/-- Observable side effects of `train_net`, in source order.
`schedStep` would be a `lr_scheduler.step()` call; the constructor exists
so that its absence from every trace is expressible. -/
inductive Ev where
  | randint (hi r : Nat)                            -- np.random.randint (line 49)
  | getDataset (portion : String) (nViews : Nat)    -- dataset_loader.get_dataset (lines 51, 55)
  | mkWriter (sub : String)                         -- SummaryWriter (lines 64–65)
  | applyInit (m : Model)                           -- .apply(init_weights) (lines 72–73)
  | mkScheduler (m : Model) (milestones : List Nat) -- MultiStepLR (lines 88–89)
  | loadCheckpoint                                  -- torch.load (line 104)
  | trainMode (m : Model)                           -- .train() (lines 136–137)
  | forward (m : Model)                             -- encoder/generator forward (lines 144–145)
  | zeroGrad (m : Model)                            -- .zero_grad() (lines 148–149)
  | backward                                        -- loss.backward() (line 151)
  | optStep (m : Model)                             -- solver.step() (lines 153–154)
  | schedStep (m : Model)                           -- scheduler.step(): never called in the source
  | appendLoss (v : ℚ)                              -- epoch accumulator append (line 160)
  | addScalar (tag : String) (v : ℚ) (step : Nat)   -- writer.add_scalar (lines 163, 176)
  | addImage (step : Nat)                           -- writer.add_image (line 169)
  | testNet (epoch : Nat)                           -- test_net call (line 182)
  | ensureDir (d : String)                          -- os.makedirs if missing (lines 186–187, 191–192)
  | saveCkpt (f : CkptFile)                         -- save_checkpoints (lines 188, 196)
  | closeWriter (sub : String)                      -- writer.close() (lines 200–201)
deriving DecidableEq

/-- Python exceptions `train_net` can raise during setup. -/
inductive PyErr where
  | typeError (msg : String)     -- bad keyword argument to a constructor
  | exception (msg : String)     -- `raise Exception(...)` (line 85)
deriving DecidableEq

/-- The checkpoint record (dict) loaded at lines 104–112 and written by
`utils.network_utils.save_checkpoints`.  State dicts are abstract `Nat`
identifiers. -/
structure Checkpoint where
  epoch_idx : Nat
  best_iou : ℚ
  best_epoch : Int
  generator_state_dict : Nat
  generator_solver_state_dict : Nat
  image_encoder_state_dict : Nat
  image_encoder_solver_state_dict : Nat
deriving DecidableEq

/-- The configuration fields `train_net` reads (the nested
`cfg.CONST.* / cfg.TRAIN.* / cfg.TEST.* / cfg.DATASET.*` tree is
flattened; fields feeding only the external transform pipeline and
device placement are omitted, as those are out-of-scope collaborators).
`WEIGHTS` models `cfg.CONST.WEIGHTS` together with the checkpoint record
`torch.load` would read from that path; `none` means the key is absent
(`'WEIGHTS' in cfg.CONST` is false). -/
structure TrainCfg where
  N_VIEWS : Nat
  BATCH_SIZE : Nat
  RANDOM_NUM_VIEWS : Bool
  TRAIN_DATASET_PORTION : String
  TEST_DATASET_PORTION : String
  POLICY : String
  NUM_EPOCHES : Nat
  SAVE_FREQ : Nat
  VISUALIZATION_FREQ : Nat
  RESUME_TRAIN : Bool
  WEIGHTS : Option Checkpoint
  GENERATOR_LR_MILESTONES : List Nat
  IMAGE_ENCODER_LR_MILESTONES : List Nat

/-- Where a network's parameters currently come from:
freshly constructed, after `apply(init_weights)`, or loaded from a
checkpoint state dict. -/
inductive ParamState where
  | constructed
  | initialized
  | loaded (sd : Nat)
deriving DecidableEq

/-- Where an optimizer's internal state comes from. -/
inductive OptState where
  | constructed
  | loaded (sd : Nat)
deriving DecidableEq

/-- An abstract `torch.optim` optimizer instance. -/
structure Solver where
  policy : String
  kwargs : List String
deriving DecidableEq

/-- Keyword arguments accepted by `torch.optim.SGD` (PyTorch API):
`momentum` is accepted, `betas` is not. -/
def sgdKwargs : List String :=
  ["params", "lr", "momentum", "dampening", "weight_decay", "nesterov"]

/-- Keyword arguments accepted by `torch.optim.Adam` (PyTorch API). -/
def adamKwargs : List String :=
  ["params", "lr", "betas", "eps", "weight_decay", "amsgrad"]

/-- Constructing an optimizer with keyword arguments `ks`: Python raises
`TypeError` on the first unexpected keyword argument. -/
def mkOptim (policy : String) (accepted ks : List String) : Except PyErr Solver :=
  match ks.find? (fun k => !(accepted.contains k)) with
  | some k => .error (.typeError ("unexpected keyword argument " ++ k))
  | none => .ok ⟨policy, ks⟩

/-- Lines 76–85: solver construction.  The `adam` branch passes
`lr`/`betas` to both `Adam` calls; the `sgd` branch passes `lr`/`momentum`
for the generator solver (line 82) but `lr`/`betas` for the image-encoder
solver (line 83); any other policy raises
`Exception('[FATAL] %s Unknown optimizer %s.')` (the timestamp inserted by
`dt.now()` is elided from the message). -/
def solverSetup (cfg : TrainCfg) : Except PyErr (Solver × Solver) :=
  if cfg.POLICY = "adam" then
    match mkOptim "adam" adamKwargs ["params", "lr", "betas"] with
    | .error e => .error e
    | .ok g =>
      match mkOptim "adam" adamKwargs ["params", "lr", "betas"] with
      | .error e => .error e
      | .ok en => .ok (g, en)
  else if cfg.POLICY = "sgd" then
    match mkOptim "sgd" sgdKwargs ["params", "lr", "momentum"] with
    | .error e => .error e
    | .ok g =>
      match mkOptim "sgd" sgdKwargs ["params", "lr", "betas"] with
      | .error e => .error e
      | .ok en => .ok (g, en)
  else
    .error (.exception ("Unknown optimizer " ++ cfg.POLICY ++ "."))

/-- Line 49: `n_views = np.random.randint(cfg.CONST.N_VIEWS) + 1 if
cfg.TRAIN.RANDOM_NUM_VIEWS else cfg.CONST.N_VIEWS`.  The RNG draw is the
parameter `r`, standing for `np.random.randint(N_VIEWS)` (a uniform
integer in `[0, N_VIEWS)`). -/
def nViewsVal (cfg : TrainCfg) (r : Nat) : Nat :=
  if cfg.RANDOM_NUM_VIEWS then r + 1 else cfg.N_VIEWS

/-- One batch yielded by the training data loader (line 127):
`(taxonomy_names, sample_names, rendering_images, voxels)`.
`rendering_images` is an abstract tensor identifier; `voxels` is a list
of abstract per-sample voxel tensors, so `n_samples = len(voxels)` is
`voxels.length` (line 128). -/
structure Batch where
  taxonomy_names : List String
  sample_names : List String
  rendering_images : Nat
  voxels : List Nat
deriving DecidableEq

/-- Best-so-far bookkeeping (`best_iou`, `best_epoch`), initialized to
the sentinels `-1` at lines 100–101. -/
structure SessionBest where
  best_iou : ℚ
  best_epoch : Int
deriving DecidableEq

/-- Lines 127–172: the body of the inner batch loop for one batch.
Parameters `encode`/`generate` are the two networks (abstract functions
on tensor identifiers), `bce` is `torch.nn.BCELoss()`.  Returns the
updated loss accumulator and the events of this iteration; a batch whose
`n_samples` differs from `cfg.CONST.BATCH_SIZE` is skipped via `continue`
(lines 129–130), producing no events and no accumulator change. -/
def processBatch (cfg : TrainCfg) (encode generate : Nat → Nat)
    (bce : Nat → List Nat → ℚ) (epoch_idx n_batches batch_idx : Nat)
    (b : Batch) (losses : List ℚ) : List ℚ × List Ev :=
  let n_samples := b.voxels.length
  if ¬(n_samples = cfg.BATCH_SIZE) then
    (losses, [])
  else
    let rendering_image_features := encode b.rendering_images
    let generated_voxels := generate rendering_image_features
    let image_encoder_loss := bce generated_voxels b.voxels * 10
    let n_itr := epoch_idx * n_batches + batch_idx
    (losses ++ [image_encoder_loss],
      [.trainMode .generator, .trainMode .imageEncoder,
       .forward .imageEncoder, .forward .generator,
       .zeroGrad .generator, .zeroGrad .imageEncoder,
       .backward,
       .optStep .generator, .optStep .imageEncoder,
       .appendLoss image_encoder_loss,
       .addScalar "Generator/ImageEncoderLoss" image_encoder_loss n_itr]
      ++ (if n_itr % cfg.VISUALIZATION_FREQ = 0 then [.addImage n_itr] else []))

/-- The enumerated batch loop (line 127): `enumerate(train_data_loader)`
threaded through `processBatch`, concatenating event traces. -/
def runBatches (cfg : TrainCfg) (encode generate : Nat → Nat)
    (bce : Nat → List Nat → ℚ) (epoch_idx n_batches : Nat) :
    List (Nat × Batch) → List ℚ → List ℚ × List Ev
  | [], losses => (losses, [])
  | (batch_idx, b) :: rest, losses =>
    let step := processBatch cfg encode generate bce epoch_idx n_batches batch_idx b losses
    let tail := runBatches cfg encode generate bce epoch_idx n_batches rest step.1
    (tail.1, step.2 ++ tail.2)

/-- `np.mean` over the accumulated losses (line 175); `np.mean([])` is
NaN in NumPy, modelled here by rational division by zero (= 0). -/
def npMean (xs : List ℚ) : ℚ := xs.sum / (xs.length : ℚ)

/-- Lines 185–197: the checkpoint decision for one epoch.  Periodic save
when `(epoch_idx + 1) % SAVE_FREQ == 0`; **elif** `iou > best_iou`,
update the pair and write the best file; else nothing. -/
def checkpointDecision (cfg : TrainCfg) (epoch_idx : Nat) (iou : ℚ)
    (best : SessionBest) : SessionBest × List Ev :=
  if (epoch_idx + 1) % cfg.SAVE_FREQ = 0 then
    (best, [.ensureDir "checkpoints", .saveCkpt (.periodic (epoch_idx + 1))])
  else if best.best_iou < iou then
    (⟨iou, (epoch_idx + 1 : Int)⟩,
     [.ensureDir "checkpoints", .saveCkpt .best])
  else
    (best, [])

/-- Lines 118–197: the body of one epoch `epoch_idx`.  `iou_of e` is the
score `test_net` returns when called with 1-based epoch number `e`
(line 182).  Returns the updated best pair and this epoch's events. -/
def runEpoch (cfg : TrainCfg) (encode generate : Nat → Nat)
    (bce : Nat → List Nat → ℚ) (iou_of : Nat → ℚ) (batches : List Batch)
    (epoch_idx : Nat) (best : SessionBest) : SessionBest × List Ev :=
  let n_batches := batches.length
  let bres := runBatches cfg encode generate bce epoch_idx n_batches batches.enum []
  let image_encoder_mean_loss := npMean bres.1
  let iou := iou_of (epoch_idx + 1)
  let cres := checkpointDecision cfg epoch_idx iou best
  (cres.1,
    bres.2
    ++ [.addScalar "Generator/MeanLoss" image_encoder_mean_loss (epoch_idx + 1),
        .testNet (epoch_idx + 1)]
    ++ cres.2)

/-- The epoch loop over the given epoch indices, threading the best pair
and concatenating event traces.  `batchesOf e` is what the (shuffled)
training loader yields in epoch `e`. -/
def runEpochsAux (cfg : TrainCfg) (encode generate : Nat → Nat)
    (bce : Nat → List Nat → ℚ) (iou_of : Nat → ℚ)
    (batchesOf : Nat → List Batch) :
    List Nat → SessionBest → SessionBest × List Ev
  | [], best => (best, [])
  | e :: rest, best =>
    let step := runEpoch cfg encode generate bce iou_of (batchesOf e) e best
    let tail := runEpochsAux cfg encode generate bce iou_of batchesOf rest step.1
    (tail.1, step.2 ++ tail.2)

/-- The observable outcome of one `train_net` call. -/
structure RunResult where
  events : List Ev
  err : Option PyErr
  init_epoch : Nat
  best_start : SessionBest
  generator_params : ParamState
  image_encoder_params : ParamState
  generator_solver_st : OptState
  image_encoder_solver_st : OptState
  epochsIterated : List Nat
  best_final : SessionBest
deriving DecidableEq

/-- Line 102: resume iff `'WEIGHTS' in cfg.CONST and
cfg.TRAIN.RESUME_TRAIN`. -/
def resumeOf (cfg : TrainCfg) : Option Checkpoint :=
  match cfg.WEIGHTS, cfg.RESUME_TRAIN with
  | some ck, true => some ck
  | _, _ => none

/-- Events of lines 48–73: loader/dataset construction (with the run's
single `n_views` value), the two summary writers, and the unconditional
`apply(init_weights)` on both networks. -/
def setupEvents (cfg : TrainCfg) (r : Nat) : List Ev :=
  (if cfg.RANDOM_NUM_VIEWS then [Ev.randint cfg.N_VIEWS r] else [])
  ++ [.getDataset cfg.TRAIN_DATASET_PORTION (nViewsVal cfg r),
      .getDataset cfg.TEST_DATASET_PORTION (nViewsVal cfg r),
      .mkWriter "train", .mkWriter "test",
      .applyInit .generator, .applyInit .imageEncoder]

/-- Shallow embedding of `train_net` (`core/train.py`, lines 26–201).
The transform pipelines (lines 31–45), CUDA placement (lines 91–93) and
console prints are elided as pure/out-of-scope effects; everything else
is embedded in source order.  `r` stands for the single
`np.random.randint` draw of line 49. -/
def train_net (cfg : TrainCfg) (encode generate : Nat → Nat)
    (bce : Nat → List Nat → ℚ) (iou_of : Nat → ℚ)
    (batchesOf : Nat → List Batch) (r : Nat) : RunResult :=
  let sEvs := setupEvents cfg r
  match solverSetup cfg with
  | .error e =>
    { events := sEvs, err := some e, init_epoch := 0,
      best_start := ⟨-1, -1⟩,
      generator_params := .initialized, image_encoder_params := .initialized,
      generator_solver_st := .constructed, image_encoder_solver_st := .constructed,
      epochsIterated := [], best_final := ⟨-1, -1⟩ }
  | .ok _ =>
    let schedEvs : List Ev :=
      [.mkScheduler .generator cfg.GENERATOR_LR_MILESTONES,
       .mkScheduler .imageEncoder cfg.IMAGE_ENCODER_LR_MILESTONES]
    match resumeOf cfg with
    | some ck =>
      let epochs := List.range' ck.epoch_idx (cfg.NUM_EPOCHES - ck.epoch_idx)
      let best0 : SessionBest := ⟨ck.best_iou, ck.best_epoch⟩
      let loop := runEpochsAux cfg encode generate bce iou_of batchesOf epochs best0
      { events := sEvs ++ schedEvs ++ [.loadCheckpoint] ++ loop.2
                  ++ [.closeWriter "train", .closeWriter "test"],
        err := none, init_epoch := ck.epoch_idx, best_start := best0,
        generator_params := .loaded ck.generator_state_dict,
        image_encoder_params := .loaded ck.image_encoder_state_dict,
        generator_solver_st := .loaded ck.generator_solver_state_dict,
        image_encoder_solver_st := .loaded ck.image_encoder_solver_state_dict,
        epochsIterated := epochs, best_final := loop.1 }
    | none =>
      let epochs := List.range' 0 (cfg.NUM_EPOCHES - 0)
      let best0 : SessionBest := ⟨-1, -1⟩
      let loop := runEpochsAux cfg encode generate bce iou_of batchesOf epochs best0
      { events := sEvs ++ schedEvs ++ loop.2
                  ++ [.closeWriter "train", .closeWriter "test"],
        err := none, init_epoch := 0, best_start := best0,
        generator_params := .initialized,
        image_encoder_params := .initialized,
        generator_solver_st := .constructed,
        image_encoder_solver_st := .constructed,
        epochsIterated := epochs, best_final := loop.1 }

/-! ### Event discriminators -/

/-- Is the event a learning-rate-scheduler step? -/
def isSchedStep : Ev → Bool
  | .schedStep _ => true
  | _ => false

/-- Is the event an `np.random.randint` draw? -/
def isRandint : Ev → Bool
  | .randint _ _ => true
  | _ => false

/-- Is the event a `get_dataset` call? -/
def isGetDataset : Ev → Bool
  | .getDataset _ _ => true
  | _ => false

/-- Is the event an `apply(init_weights)` call? -/
def isApplyInit : Ev → Bool
  | .applyInit _ => true
  | _ => false

/-- Is the event a checkpoint write (either file)? -/
def isSave : Ev → Bool
  | .saveCkpt _ => true
  | _ => false

/-- Is the event a write of the best file `best-ckpt.pth.tar`? -/
def isBestSave : Ev → Bool
  | .saveCkpt .best => true
  | _ => false

/-- Is the event a directory creation (`os.makedirs`)? -/
def isEnsureDir : Ev → Bool
  | .ensureDir _ => true
  | _ => false

/-- Does the event belong to per-batch training work or per-epoch
validation (anything inside the epoch loop's body)? -/
def isBatchWork : Ev → Bool
  | .trainMode _ => true
  | .forward _ => true
  | .zeroGrad _ => true
  | .backward => true
  | .optStep _ => true
  | .appendLoss _ => true
  | .addScalar _ _ _ => true
  | .addImage _ => true
  | .testNet _ => true
  | _ => false

/-- Number of occurrences of the exact event `x` in a trace. -/
def countEv (x : Ev) (l : List Ev) : Nat := l.countP (fun ev => decide (ev = x))

/-! ### Concrete instances used by witnesses and counterexamples -/

/-- Test double for the image encoder's forward pass. -/
def encodeD : Nat → Nat := fun x => x + 1

/-- Test double for the generator's forward pass. -/
def generateD : Nat → Nat := fun x => 2 * x

/-- Test double for `BCELoss` (integer-valued rational, so that kernel
evaluation needs no `Nat.gcd` normalization). -/
def bceD : Nat → List Nat → ℚ := fun _ _ => 3

/-- Test double for the per-epoch validation score. -/
def iouD : Nat → ℚ := fun _ => 1

/-- Test double for the training loader: no batches. -/
def batchesD : Nat → List Batch := fun _ => []

/-- A concrete checkpoint record. -/
def ckD : Checkpoint := ⟨2, 1, 1, 11, 12, 13, 14⟩

/-- A concrete configuration (fresh adam run, batch size 2). -/
def cfgBase : TrainCfg where
  N_VIEWS := 3
  BATCH_SIZE := 2
  RANDOM_NUM_VIEWS := false
  TRAIN_DATASET_PORTION := "train"
  TEST_DATASET_PORTION := "test"
  POLICY := "adam"
  NUM_EPOCHES := 1
  SAVE_FREQ := 10
  VISUALIZATION_FREQ := 5
  RESUME_TRAIN := false
  WEIGHTS := none
  GENERATOR_LR_MILESTONES := [150]
  IMAGE_ENCODER_LR_MILESTONES := [150]

/-- `cfgBase` with a resume checkpoint configured and the resume flag
set, over 4 epochs. -/
def cfgResume : TrainCfg :=
  { cfgBase with WEIGHTS := some ckD, RESUME_TRAIN := true, NUM_EPOCHES := 4 }

/-- `cfgBase` with an optimizer policy outside `{adam, sgd}`. -/
def cfgUnknown : TrainCfg := { cfgBase with POLICY := "rmsprop" }

/-- `cfgBase` with the nominally supported `sgd` policy. -/
def cfgSgd : TrainCfg := { cfgBase with POLICY := "sgd" }

/-- `cfgBase` with the random-number-of-views flag enabled. -/
def cfgRand : TrainCfg := { cfgBase with RANDOM_NUM_VIEWS := true }

/-- A one-sample batch (ragged w.r.t. `cfgBase.BATCH_SIZE = 2`). -/
def batchD1 : Batch := ⟨["chair"], ["s1"], 5, [1]⟩

/-- A two-sample batch (matching `cfgBase.BATCH_SIZE = 2`). -/
def batchD2 : Batch := ⟨["chair", "table"], ["s1", "s2"], 5, [1, 2]⟩

/-! ### Trace-counting helper lemmas -/

theorem runBatches_countP_zero (cfg : TrainCfg) (encode generate : Nat → Nat)
    (bce : Nat → List Nat → ℚ) (e nb : Nat) (p : Ev → Bool)
    (h1 : ∀ m, p (.trainMode m) = false) (h2 : ∀ m, p (.forward m) = false)
    (h3 : ∀ m, p (.zeroGrad m) = false) (h4 : p .backward = false)
    (h5 : ∀ m, p (.optStep m) = false) (h6 : ∀ v, p (.appendLoss v) = false)
    (h7 : ∀ t v s, p (.addScalar t v s) = false)
    (h8 : ∀ s, p (.addImage s) = false) :
    ∀ (l : List (Nat × Batch)) (losses : List ℚ),
      (runBatches cfg encode generate bce e nb l losses).2.countP p = 0 := by
  intro l
  induction l with
  | nil => intro losses; simp [runBatches]
  | cons hd tl ih =>
    intro losses
    obtain ⟨bi, b⟩ := hd
    simp only [runBatches, List.countP_append]
    rw [ih]
    by_cases hb : b.voxels.length = cfg.BATCH_SIZE
    · simp only [processBatch, hb, not_true_eq_false, if_false]
      split <;>
        simp [List.countP_append, List.countP_cons, h1, h2, h3, h4, h5, h6, h7, h8]
    · simp [processBatch, hb]

theorem runEpoch_countP_zero (cfg : TrainCfg) (encode generate : Nat → Nat)
    (bce : Nat → List Nat → ℚ) (iou_of : Nat → ℚ) (p : Ev → Bool)
    (h1 : ∀ m, p (.trainMode m) = false) (h2 : ∀ m, p (.forward m) = false)
    (h3 : ∀ m, p (.zeroGrad m) = false) (h4 : p .backward = false)
    (h5 : ∀ m, p (.optStep m) = false) (h6 : ∀ v, p (.appendLoss v) = false)
    (h7 : ∀ t v s, p (.addScalar t v s) = false)
    (h8 : ∀ s, p (.addImage s) = false)
    (h9 : ∀ n, p (.testNet n) = false)
    (h10 : ∀ d, p (.ensureDir d) = false)
    (h11 : ∀ f, p (.saveCkpt f) = false) :
    ∀ (batches : List Batch) (e : Nat) (best : SessionBest),
      (runEpoch cfg encode generate bce iou_of batches e best).2.countP p = 0 := by
  intro batches e best
  simp only [runEpoch, List.countP_append]
  rw [runBatches_countP_zero cfg encode generate bce e batches.length p
      h1 h2 h3 h4 h5 h6 h7 h8]
  simp only [checkpointDecision]
  split
  · simp [List.countP_cons, h7, h9, h10, h11]
  · split <;> simp [List.countP_cons, h7, h9, h10, h11]

theorem runEpochsAux_countP_zero (cfg : TrainCfg) (encode generate : Nat → Nat)
    (bce : Nat → List Nat → ℚ) (iou_of : Nat → ℚ)
    (batchesOf : Nat → List Batch) (p : Ev → Bool)
    (h1 : ∀ m, p (.trainMode m) = false) (h2 : ∀ m, p (.forward m) = false)
    (h3 : ∀ m, p (.zeroGrad m) = false) (h4 : p .backward = false)
    (h5 : ∀ m, p (.optStep m) = false) (h6 : ∀ v, p (.appendLoss v) = false)
    (h7 : ∀ t v s, p (.addScalar t v s) = false)
    (h8 : ∀ s, p (.addImage s) = false)
    (h9 : ∀ n, p (.testNet n) = false)
    (h10 : ∀ d, p (.ensureDir d) = false)
    (h11 : ∀ f, p (.saveCkpt f) = false) :
    ∀ (epochs : List Nat) (best : SessionBest),
      (runEpochsAux cfg encode generate bce iou_of batchesOf epochs best).2.countP p = 0 := by
  intro epochs
  induction epochs with
  | nil => intro best; simp [runEpochsAux]
  | cons e rest ih =>
    intro best
    simp only [runEpochsAux, List.countP_append]
    rw [ih, runEpoch_countP_zero cfg encode generate bce iou_of p
      h1 h2 h3 h4 h5 h6 h7 h8 h9 h10 h11]

theorem setupEvents_countP_zero (cfg : TrainCfg) (r : Nat) (p : Ev → Bool)
    (hr : ∀ hi rv, p (.randint hi rv) = false)
    (hg : ∀ s n, p (.getDataset s n) = false)
    (hw : ∀ s, p (.mkWriter s) = false)
    (ha : ∀ m, p (.applyInit m) = false) :
    (setupEvents cfg r).countP p = 0 := by
  unfold setupEvents
  split <;> simp [List.countP_cons, List.countP_append, hr, hg, hw, ha]

theorem train_net_countP_eq_setup (cfg : TrainCfg) (encode generate : Nat → Nat)
    (bce : Nat → List Nat → ℚ) (iou_of : Nat → ℚ) (batchesOf : Nat → List Batch)
    (r : Nat) (p : Ev → Bool)
    (hsched : ∀ m ms, p (.mkScheduler m ms) = false)
    (hload : p .loadCheckpoint = false)
    (hclose : ∀ s, p (.closeWriter s) = false)
    (h1 : ∀ m, p (.trainMode m) = false) (h2 : ∀ m, p (.forward m) = false)
    (h3 : ∀ m, p (.zeroGrad m) = false) (h4 : p .backward = false)
    (h5 : ∀ m, p (.optStep m) = false) (h6 : ∀ v, p (.appendLoss v) = false)
    (h7 : ∀ t v s, p (.addScalar t v s) = false)
    (h8 : ∀ s, p (.addImage s) = false)
    (h9 : ∀ n, p (.testNet n) = false)
    (h10 : ∀ d, p (.ensureDir d) = false)
    (h11 : ∀ f, p (.saveCkpt f) = false) :
    (train_net cfg encode generate bce iou_of batchesOf r).events.countP p
      = (setupEvents cfg r).countP p := by
  unfold train_net
  split
  · rfl
  · split <;>
    · simp only [List.countP_append, List.countP_cons, List.countP_nil,
        runEpochsAux_countP_zero cfg encode generate bce iou_of batchesOf p
          h1 h2 h3 h4 h5 h6 h7 h8 h9 h10 h11,
        hsched, hload, hclose]
      simp

/-- The best pair returned by one epoch is exactly the checkpoint
decision applied to this epoch's validation score. -/
theorem runEpoch_fst (cfg : TrainCfg) (encode generate : Nat → Nat)
    (bce : Nat → List Nat → ℚ) (iou_of : Nat → ℚ) (batches : List Batch)
    (e : Nat) (best : SessionBest) :
    (runEpoch cfg encode generate bce iou_of batches e best).1
      = (checkpointDecision cfg e (iou_of (e + 1)) best).1 := rfl

theorem checkpointDecision_fst_mono (cfg : TrainCfg) (e : Nat) (iou : ℚ)
    (best : SessionBest) :
    best.best_iou ≤ (checkpointDecision cfg e iou best).1.best_iou := by
  by_cases h1 : (e + 1) % cfg.SAVE_FREQ = 0
  · simp [checkpointDecision, h1]
  · by_cases h2 : best.best_iou < iou
    · simp [checkpointDecision, h1, h2, le_of_lt h2]
    · simp [checkpointDecision, h1, h2]

/-- Every setup event occurs in the run's event trace (the setup events
lead every trace, whether or not solver construction succeeds). -/
theorem mem_train_net_events_of_mem_setup (cfg : TrainCfg)
    (encode generate : Nat → Nat) (bce : Nat → List Nat → ℚ)
    (iou_of : Nat → ℚ) (batchesOf : Nat → List Batch) (r : Nat) (x : Ev)
    (hx : x ∈ setupEvents cfg r) :
    x ∈ (train_net cfg encode generate bce iou_of batchesOf r).events := by
  unfold train_net
  split
  · exact hx
  · split <;> simp [List.mem_append, hx]

/-! ### Claim theorems -/

/-- **C5.** A training batch whose sample count differs from the
configured batch size is skipped with no state mutation: the `continue`
at lines 129–130 leaves the loss accumulator unchanged and produces no
events at all (no optimizer step, no append, no summary, no step value
used). -/
theorem ragged_batch_is_noop (cfg : TrainCfg) (encode generate : Nat → Nat)
    (bce : Nat → List Nat → ℚ) (e nb bi : Nat) (b : Batch) (losses : List ℚ)
    (h : b.voxels.length ≠ cfg.BATCH_SIZE) :
    processBatch cfg encode generate bce e nb bi b losses = (losses, []) := by
  simp [processBatch, h]

/-- Witness for `ragged_batch_is_noop` at a concrete one-sample batch. -/
theorem ragged_batch_is_noop_witness :
    batchD1.voxels.length ≠ cfgBase.BATCH_SIZE ∧
    processBatch cfgBase encodeD generateD bceD 0 3 2 batchD1 [] = ([], []) :=
  ⟨by decide,
   ragged_batch_is_noop cfgBase encodeD generateD bceD 0 3 2 batchD1 [] (by decide)⟩

/-- **C7.** For a processed batch (sample count equal to the configured
batch size): the scalar loss is `bce(generated, ground truth) * 10` and
is appended to the accumulator, both models' gradients are zeroed once,
one backward pass runs, and both optimizers step exactly once each. -/
theorem processed_batch_loss_and_steps (cfg : TrainCfg)
    (encode generate : Nat → Nat) (bce : Nat → List Nat → ℚ)
    (e nb bi : Nat) (b : Batch) (losses : List ℚ)
    (h : b.voxels.length = cfg.BATCH_SIZE) :
    (processBatch cfg encode generate bce e nb bi b losses).1
      = losses ++ [bce (generate (encode b.rendering_images)) b.voxels * 10] ∧
    countEv (.zeroGrad .generator)
      (processBatch cfg encode generate bce e nb bi b losses).2 = 1 ∧
    countEv (.zeroGrad .imageEncoder)
      (processBatch cfg encode generate bce e nb bi b losses).2 = 1 ∧
    countEv .backward
      (processBatch cfg encode generate bce e nb bi b losses).2 = 1 ∧
    countEv (.optStep .generator)
      (processBatch cfg encode generate bce e nb bi b losses).2 = 1 ∧
    countEv (.optStep .imageEncoder)
      (processBatch cfg encode generate bce e nb bi b losses).2 = 1 ∧
    countEv (.appendLoss (bce (generate (encode b.rendering_images)) b.voxels * 10))
      (processBatch cfg encode generate bce e nb bi b losses).2 = 1 := by
  refine ⟨by simp [processBatch, h], ?_, ?_, ?_, ?_, ?_, ?_⟩ <;>
    · simp only [processBatch, h, not_true_eq_false, if_false, countEv]
      split <;> simp [List.countP_append, List.countP_cons]

/-- Witness for `processed_batch_loss_and_steps` at a concrete
two-sample batch. -/
theorem processed_batch_loss_and_steps_witness :
    batchD2.voxels.length = cfgBase.BATCH_SIZE ∧
    ((processBatch cfgBase encodeD generateD bceD 0 3 1 batchD2 []).1
       = [] ++ [bceD (generateD (encodeD batchD2.rendering_images)) batchD2.voxels * 10] ∧
     countEv (.zeroGrad .generator)
       (processBatch cfgBase encodeD generateD bceD 0 3 1 batchD2 []).2 = 1 ∧
     countEv (.zeroGrad .imageEncoder)
       (processBatch cfgBase encodeD generateD bceD 0 3 1 batchD2 []).2 = 1 ∧
     countEv .backward
       (processBatch cfgBase encodeD generateD bceD 0 3 1 batchD2 []).2 = 1 ∧
     countEv (.optStep .generator)
       (processBatch cfgBase encodeD generateD bceD 0 3 1 batchD2 []).2 = 1 ∧
     countEv (.optStep .imageEncoder)
       (processBatch cfgBase encodeD generateD bceD 0 3 1 batchD2 []).2 = 1 ∧
     countEv (.appendLoss (bceD (generateD (encodeD batchD2.rendering_images)) batchD2.voxels * 10))
       (processBatch cfgBase encodeD generateD bceD 0 3 1 batchD2 []).2 = 1) :=
  ⟨by decide,
   processed_batch_loss_and_steps cfgBase encodeD generateD bceD 0 3 1 batchD2 [] (by decide)⟩

/-- **C1.** On an epoch whose 1-based index is a multiple of
`SAVE_FREQ`, only the periodic checkpoint file is written, even when the
epoch's score strictly exceeds `best_iou`: the `(best_iou, best_epoch)`
pair is unchanged and the best file is not written (the `elif` at
line 190 is short-circuited by the periodic branch at line 185). -/
theorem periodic_save_suppresses_best (cfg : TrainCfg)
    (encode generate : Nat → Nat) (bce : Nat → List Nat → ℚ)
    (iou_of : Nat → ℚ) (batches : List Batch) (e : Nat) (best : SessionBest)
    (hp : (e + 1) % cfg.SAVE_FREQ = 0)
    (_hgt : best.best_iou < iou_of (e + 1)) :
    (runEpoch cfg encode generate bce iou_of batches e best).1 = best ∧
    Ev.saveCkpt (.periodic (e + 1))
      ∈ (runEpoch cfg encode generate bce iou_of batches e best).2 ∧
    (runEpoch cfg encode generate bce iou_of batches e best).2.countP isSave = 1 ∧
    (runEpoch cfg encode generate bce iou_of batches e best).2.countP isBestSave = 0 := by
  refine ⟨?_, ?_, ?_, ?_⟩
  · simp [runEpoch, checkpointDecision, hp]
  · simp [runEpoch, checkpointDecision, hp]
  · simp only [runEpoch, List.countP_append]
    rw [runBatches_countP_zero cfg encode generate bce e batches.length isSave
      (fun _ => rfl) (fun _ => rfl) (fun _ => rfl) rfl (fun _ => rfl)
      (fun _ => rfl) (fun _ _ _ => rfl) (fun _ => rfl)]
    simp [checkpointDecision, hp, isSave, List.countP_cons]
  · simp only [runEpoch, List.countP_append]
    rw [runBatches_countP_zero cfg encode generate bce e batches.length isBestSave
      (fun _ => rfl) (fun _ => rfl) (fun _ => rfl) rfl (fun _ => rfl)
      (fun _ => rfl) (fun _ _ _ => rfl) (fun _ => rfl)]
    simp [checkpointDecision, hp, isBestSave, List.countP_cons]

/-- Witness for `periodic_save_suppresses_best`: epoch 10 with
`SAVE_FREQ = 10` and a new-best score `1/2 > -1`. -/
theorem periodic_save_suppresses_best_witness :
    ((9 + 1) % cfgBase.SAVE_FREQ = 0 ∧
      (⟨-1, -1⟩ : SessionBest).best_iou < iouD (9 + 1)) ∧
    ((runEpoch cfgBase encodeD generateD bceD iouD [] 9 ⟨-1, -1⟩).1 = ⟨-1, -1⟩ ∧
     Ev.saveCkpt (.periodic (9 + 1))
       ∈ (runEpoch cfgBase encodeD generateD bceD iouD [] 9 ⟨-1, -1⟩).2 ∧
     (runEpoch cfgBase encodeD generateD bceD iouD [] 9 ⟨-1, -1⟩).2.countP isSave = 1 ∧
     (runEpoch cfgBase encodeD generateD bceD iouD [] 9 ⟨-1, -1⟩).2.countP isBestSave = 0) :=
  ⟨⟨by decide, by decide⟩,
   periodic_save_suppresses_best cfgBase encodeD generateD bceD iouD [] 9 ⟨-1, -1⟩
     (by decide) (by decide)⟩

/-- **C6.** Across a run, `best_iou` is monotonically non-decreasing,
and the pair `(best_iou, best_epoch)` is only ever overwritten together:
an epoch either leaves it unchanged, or sets it to
`(iou_of (e+1), e+1)` with a score strictly greater than the previous
`best_iou` — so `best_epoch` always names the epoch that produced the
current `best_iou`. -/
theorem best_pair_monotone_invariant (cfg : TrainCfg)
    (encode generate : Nat → Nat) (bce : Nat → List Nat → ℚ)
    (iou_of : Nat → ℚ) (batchesOf : Nat → List Batch) :
    (∀ (epochs : List Nat) (best0 : SessionBest),
      best0.best_iou
        ≤ (runEpochsAux cfg encode generate bce iou_of batchesOf epochs best0).1.best_iou) ∧
    (∀ (e : Nat) (best : SessionBest),
      (runEpoch cfg encode generate bce iou_of (batchesOf e) e best).1 = best ∨
      ((runEpoch cfg encode generate bce iou_of (batchesOf e) e best).1.best_iou
          = iou_of (e + 1) ∧
       (runEpoch cfg encode generate bce iou_of (batchesOf e) e best).1.best_epoch
          = (e + 1 : Int) ∧
       best.best_iou
          < (runEpoch cfg encode generate bce iou_of (batchesOf e) e best).1.best_iou)) := by
  constructor
  · intro epochs
    induction epochs with
    | nil => intro best0; simp [runEpochsAux]
    | cons e rest ih =>
      intro best0
      simp only [runEpochsAux]
      refine le_trans ?_ (ih _)
      rw [runEpoch_fst]
      exact checkpointDecision_fst_mono cfg e (iou_of (e + 1)) best0
  · intro e best
    simp only [runEpoch_fst]
    by_cases h1 : (e + 1) % cfg.SAVE_FREQ = 0
    · left; simp [checkpointDecision, h1]
    · by_cases h2 : best.best_iou < iou_of (e + 1)
      · right; simp [checkpointDecision, h1, h2]
      · left; simp [checkpointDecision, h1, h2]

/-- **C2 (code bug).** The spec says both learning-rate schedules are
advanced exactly one step after every epoch's batches; the code
constructs both `MultiStepLR` schedulers (lines 88–89) but never calls
`step()` on either, so no run of `train_net` ever performs a scheduler
step: the configured milestone decay never takes effect. -/
theorem lr_schedulers_never_stepped (cfg : TrainCfg)
    (encode generate : Nat → Nat) (bce : Nat → List Nat → ℚ)
    (iou_of : Nat → ℚ) (batchesOf : Nat → List Batch) (r : Nat) :
    (train_net cfg encode generate bce iou_of batchesOf r).events.countP isSchedStep
      = 0 := by
  rw [train_net_countP_eq_setup cfg encode generate bce iou_of batchesOf r isSchedStep
    (fun _ _ => rfl) rfl (fun _ => rfl) (fun _ => rfl) (fun _ => rfl) (fun _ => rfl)
    rfl (fun _ => rfl) (fun _ => rfl) (fun _ _ _ => rfl) (fun _ => rfl) (fun _ => rfl)
    (fun _ => rfl) (fun _ => rfl)]
  exact setupEvents_countP_zero cfg r isSchedStep
    (fun _ _ => rfl) (fun _ _ => rfl) (fun _ => rfl) (fun _ => rfl)

/-- **C3 counterexample.** The claim "weight initialization is skipped
entirely when a resume path is configured and the resume flag is set" is
false: in the resuming run `cfgResume`, the trace still contains
`apply(init_weights)` events (lines 72–73 run unconditionally, before
the resume check at line 102). -/
theorem init_weights_not_skipped_when_resuming :
    (train_net cfgResume encodeD generateD bceD iouD batchesD 0).events.countP isApplyInit
      ≠ 0 := by decide

/-- **C3 (amended).** Weight initialization is applied to both models
unconditionally — also when resuming — before the resume check; when a
resume path is configured and the flag is set (and setup succeeds, i.e.
the policy is `adam`), the checkpoint's state dicts are loaded
afterwards, overwriting the initialized weights. -/
theorem init_weights_applied_then_overwritten (cfg : TrainCfg)
    (encode generate : Nat → Nat) (bce : Nat → List Nat → ℚ)
    (iou_of : Nat → ℚ) (batchesOf : Nat → List Batch) (r : Nat)
    (ck : Checkpoint) (hW : cfg.WEIGHTS = some ck)
    (hR : cfg.RESUME_TRAIN = true) (hP : cfg.POLICY = "adam") :
    (train_net cfg encode generate bce iou_of batchesOf r).events.countP isApplyInit
      = 2 ∧
    (train_net cfg encode generate bce iou_of batchesOf r).generator_params
      = .loaded ck.generator_state_dict ∧
    (train_net cfg encode generate bce iou_of batchesOf r).image_encoder_params
      = .loaded ck.image_encoder_state_dict := by
  have hs : solverSetup cfg
      = .ok (⟨"adam", ["params", "lr", "betas"]⟩, ⟨"adam", ["params", "lr", "betas"]⟩) := by
    unfold solverSetup
    rw [hP]
    rfl
  have hres : resumeOf cfg = some ck := by
    unfold resumeOf
    rw [hW, hR]
  refine ⟨?_, ?_, ?_⟩
  · rw [train_net_countP_eq_setup cfg encode generate bce iou_of batchesOf r isApplyInit
      (fun _ _ => rfl) rfl (fun _ => rfl) (fun _ => rfl) (fun _ => rfl) (fun _ => rfl)
      rfl (fun _ => rfl) (fun _ => rfl) (fun _ _ _ => rfl) (fun _ => rfl) (fun _ => rfl)
      (fun _ => rfl) (fun _ => rfl)]
    unfold setupEvents
    split <;> simp [isApplyInit, List.countP_cons, List.countP_append]
  · simp [train_net, hs, hres]
  · simp [train_net, hs, hres]

/-- Witness for `init_weights_applied_then_overwritten` at the concrete
resuming configuration `cfgResume`. -/
theorem init_weights_applied_then_overwritten_witness :
    (cfgResume.WEIGHTS = some ckD ∧ cfgResume.RESUME_TRAIN = true ∧
      cfgResume.POLICY = "adam") ∧
    ((train_net cfgResume encodeD generateD bceD iouD batchesD 0).events.countP isApplyInit
       = 2 ∧
     (train_net cfgResume encodeD generateD bceD iouD batchesD 0).generator_params
       = .loaded ckD.generator_state_dict ∧
     (train_net cfgResume encodeD generateD bceD iouD batchesD 0).image_encoder_params
       = .loaded ckD.image_encoder_state_dict) :=
  ⟨⟨rfl, rfl, rfl⟩,
   init_weights_applied_then_overwritten cfgResume encodeD generateD bceD iouD batchesD 0
     ckD rfl rfl rfl⟩

/-- **C4.** Any optimizer policy outside `{adam, sgd}` makes `train_net`
raise the fatal `Unknown optimizer` exception (line 85) with no batch
processed, no directory created (`os.makedirs` never runs), no
checkpoint written, and an empty epoch loop. -/
theorem unknown_policy_fatal (cfg : TrainCfg) (encode generate : Nat → Nat)
    (bce : Nat → List Nat → ℚ) (iou_of : Nat → ℚ)
    (batchesOf : Nat → List Batch) (r : Nat)
    (h1 : cfg.POLICY ≠ "adam") (h2 : cfg.POLICY ≠ "sgd") :
    (train_net cfg encode generate bce iou_of batchesOf r).err
      = some (.exception ("Unknown optimizer " ++ cfg.POLICY ++ ".")) ∧
    (train_net cfg encode generate bce iou_of batchesOf r).events.countP isBatchWork
      = 0 ∧
    (train_net cfg encode generate bce iou_of batchesOf r).events.countP isEnsureDir
      = 0 ∧
    (train_net cfg encode generate bce iou_of batchesOf r).events.countP isSave
      = 0 ∧
    (train_net cfg encode generate bce iou_of batchesOf r).epochsIterated = [] := by
  have hs : solverSetup cfg
      = .error (.exception ("Unknown optimizer " ++ cfg.POLICY ++ ".")) := by
    simp [solverSetup, h1, h2]
  refine ⟨?_, ?_, ?_, ?_, ?_⟩ <;> simp only [train_net, hs] <;>
    exact setupEvents_countP_zero cfg r _
      (fun _ _ => rfl) (fun _ _ => rfl) (fun _ => rfl) (fun _ => rfl)

/-- Witness for `unknown_policy_fatal` at the concrete policy
`rmsprop`. -/
theorem unknown_policy_fatal_witness :
    (cfgUnknown.POLICY ≠ "adam" ∧ cfgUnknown.POLICY ≠ "sgd") ∧
    ((train_net cfgUnknown encodeD generateD bceD iouD batchesD 0).err
       = some (.exception ("Unknown optimizer " ++ cfgUnknown.POLICY ++ ".")) ∧
     (train_net cfgUnknown encodeD generateD bceD iouD batchesD 0).events.countP isBatchWork
       = 0 ∧
     (train_net cfgUnknown encodeD generateD bceD iouD batchesD 0).events.countP isEnsureDir
       = 0 ∧
     (train_net cfgUnknown encodeD generateD bceD iouD batchesD 0).events.countP isSave
       = 0 ∧
     (train_net cfgUnknown encodeD generateD bceD iouD batchesD 0).epochsIterated = []) :=
  ⟨⟨by decide, by decide⟩,
   unknown_policy_fatal cfgUnknown encodeD generateD bceD iouD batchesD 0
     (by decide) (by decide)⟩

/-- **C8.** When a resume path is configured, the resume flag is set and
setup succeeds (`adam` policy), loading the checkpoint restores
`epoch_idx` (as the loop's starting epoch), `best_iou`, `best_epoch`,
both models' weights and both optimizers' states, and the epoch loop
iterates exactly `range(init_epoch, NUM_EPOCHES)` (exclusive upper
bound). -/
theorem resume_restores_state (cfg : TrainCfg) (encode generate : Nat → Nat)
    (bce : Nat → List Nat → ℚ) (iou_of : Nat → ℚ)
    (batchesOf : Nat → List Batch) (r : Nat) (ck : Checkpoint)
    (hW : cfg.WEIGHTS = some ck) (hR : cfg.RESUME_TRAIN = true)
    (hP : cfg.POLICY = "adam") :
    (train_net cfg encode generate bce iou_of batchesOf r).init_epoch = ck.epoch_idx ∧
    (train_net cfg encode generate bce iou_of batchesOf r).best_start
      = ⟨ck.best_iou, ck.best_epoch⟩ ∧
    (train_net cfg encode generate bce iou_of batchesOf r).generator_params
      = .loaded ck.generator_state_dict ∧
    (train_net cfg encode generate bce iou_of batchesOf r).generator_solver_st
      = .loaded ck.generator_solver_state_dict ∧
    (train_net cfg encode generate bce iou_of batchesOf r).image_encoder_params
      = .loaded ck.image_encoder_state_dict ∧
    (train_net cfg encode generate bce iou_of batchesOf r).image_encoder_solver_st
      = .loaded ck.image_encoder_solver_state_dict ∧
    (train_net cfg encode generate bce iou_of batchesOf r).epochsIterated
      = List.range' ck.epoch_idx (cfg.NUM_EPOCHES - ck.epoch_idx) := by
  have hs : solverSetup cfg
      = .ok (⟨"adam", ["params", "lr", "betas"]⟩, ⟨"adam", ["params", "lr", "betas"]⟩) := by
    unfold solverSetup
    rw [hP]
    rfl
  have hres : resumeOf cfg = some ck := by
    unfold resumeOf
    rw [hW, hR]
  simp [train_net, hs, hres]

/-- Witness for `resume_restores_state` at the concrete checkpoint
`ckD` (epoch 2 of 4: the loop covers exactly epochs 2 and 3). -/
theorem resume_restores_state_witness :
    (cfgResume.WEIGHTS = some ckD ∧ cfgResume.RESUME_TRAIN = true ∧
      cfgResume.POLICY = "adam") ∧
    ((train_net cfgResume encodeD generateD bceD iouD batchesD 0).init_epoch
       = ckD.epoch_idx ∧
     (train_net cfgResume encodeD generateD bceD iouD batchesD 0).best_start
       = ⟨ckD.best_iou, ckD.best_epoch⟩ ∧
     (train_net cfgResume encodeD generateD bceD iouD batchesD 0).generator_params
       = .loaded ckD.generator_state_dict ∧
     (train_net cfgResume encodeD generateD bceD iouD batchesD 0).generator_solver_st
       = .loaded ckD.generator_solver_state_dict ∧
     (train_net cfgResume encodeD generateD bceD iouD batchesD 0).image_encoder_params
       = .loaded ckD.image_encoder_state_dict ∧
     (train_net cfgResume encodeD generateD bceD iouD batchesD 0).image_encoder_solver_st
       = .loaded ckD.image_encoder_solver_state_dict ∧
     (train_net cfgResume encodeD generateD bceD iouD batchesD 0).epochsIterated
       = List.range' ckD.epoch_idx (cfgResume.NUM_EPOCHES - ckD.epoch_idx)) :=
  ⟨⟨rfl, rfl, rfl⟩,
   resume_restores_state cfgResume encodeD generateD bceD iouD batchesD 0 ckD
     rfl rfl rfl⟩

/-- **C9.** The number of views is computed exactly once per run, before
the epoch loop: the value is `r + 1 ∈ [1, N_VIEWS]` when the
random-number-of-views flag is set (with `r` the single
`np.random.randint(N_VIEWS)` draw) and the fixed `N_VIEWS` otherwise;
both the training and validation datasets receive this same value, and
the RNG draw occurs exactly once (never per epoch or per batch). -/
theorem n_views_drawn_once_per_run (cfg : TrainCfg)
    (encode generate : Nat → Nat) (bce : Nat → List Nat → ℚ)
    (iou_of : Nat → ℚ) (batchesOf : Nat → List Batch) (r : Nat)
    (h : r < cfg.N_VIEWS) :
    1 ≤ nViewsVal cfg r ∧ nViewsVal cfg r ≤ cfg.N_VIEWS ∧
    Ev.getDataset cfg.TRAIN_DATASET_PORTION (nViewsVal cfg r)
      ∈ (train_net cfg encode generate bce iou_of batchesOf r).events ∧
    Ev.getDataset cfg.TEST_DATASET_PORTION (nViewsVal cfg r)
      ∈ (train_net cfg encode generate bce iou_of batchesOf r).events ∧
    (train_net cfg encode generate bce iou_of batchesOf r).events.countP isGetDataset
      = 2 ∧
    (train_net cfg encode generate bce iou_of batchesOf r).events.countP isRandint
      = (if cfg.RANDOM_NUM_VIEWS then 1 else 0) := by
  refine ⟨?_, ?_, ?_, ?_, ?_, ?_⟩
  · unfold nViewsVal; split <;> omega
  · unfold nViewsVal; split <;> omega
  · exact mem_train_net_events_of_mem_setup cfg encode generate bce iou_of batchesOf r _
      (by unfold setupEvents; simp)
  · exact mem_train_net_events_of_mem_setup cfg encode generate bce iou_of batchesOf r _
      (by unfold setupEvents; simp)
  · rw [train_net_countP_eq_setup cfg encode generate bce iou_of batchesOf r isGetDataset
      (fun _ _ => rfl) rfl (fun _ => rfl) (fun _ => rfl) (fun _ => rfl) (fun _ => rfl)
      rfl (fun _ => rfl) (fun _ => rfl) (fun _ _ _ => rfl) (fun _ => rfl) (fun _ => rfl)
      (fun _ => rfl) (fun _ => rfl)]
    unfold setupEvents
    split <;> simp [isGetDataset, List.countP_cons, List.countP_append]
  · rw [train_net_countP_eq_setup cfg encode generate bce iou_of batchesOf r isRandint
      (fun _ _ => rfl) rfl (fun _ => rfl) (fun _ => rfl) (fun _ => rfl) (fun _ => rfl)
      rfl (fun _ => rfl) (fun _ => rfl) (fun _ _ _ => rfl) (fun _ => rfl) (fun _ => rfl)
      (fun _ => rfl) (fun _ => rfl)]
    unfold setupEvents
    split <;> rename_i hflag <;>
      simp [isRandint, List.countP_cons, List.countP_append, hflag]

/-- Witness for `n_views_drawn_once_per_run`: random flag on,
`r = 1 < N_VIEWS = 3`, so `n_views = 2` everywhere and one draw. -/
theorem n_views_drawn_once_per_run_witness :
    (1 < cfgRand.N_VIEWS) ∧
    (1 ≤ nViewsVal cfgRand 1 ∧ nViewsVal cfgRand 1 ≤ cfgRand.N_VIEWS ∧
     Ev.getDataset cfgRand.TRAIN_DATASET_PORTION (nViewsVal cfgRand 1)
       ∈ (train_net cfgRand encodeD generateD bceD iouD batchesD 1).events ∧
     Ev.getDataset cfgRand.TEST_DATASET_PORTION (nViewsVal cfgRand 1)
       ∈ (train_net cfgRand encodeD generateD bceD iouD batchesD 1).events ∧
     (train_net cfgRand encodeD generateD bceD iouD batchesD 1).events.countP isGetDataset
       = 2 ∧
     (train_net cfgRand encodeD generateD bceD iouD batchesD 1).events.countP isRandint
       = (if cfgRand.RANDOM_NUM_VIEWS then 1 else 0)) :=
  ⟨by decide,
   n_views_drawn_once_per_run cfgRand encodeD generateD bceD iouD batchesD 1 (by decide)⟩

/-- **C10.** Selecting the nominally valid `sgd` policy crashes before
any training batch: line 83 passes `betas` to `torch.optim.SGD`, whose
constructor accepts `momentum` but not `betas`, so a `TypeError` is
raised during setup — no batch work, no checkpoint, empty epoch loop. -/
theorem sgd_policy_raises_typeerror (cfg : TrainCfg)
    (encode generate : Nat → Nat) (bce : Nat → List Nat → ℚ)
    (iou_of : Nat → ℚ) (batchesOf : Nat → List Batch) (r : Nat)
    (h : cfg.POLICY = "sgd") :
    (train_net cfg encode generate bce iou_of batchesOf r).err
      = some (.typeError "unexpected keyword argument betas") ∧
    (train_net cfg encode generate bce iou_of batchesOf r).events.countP isBatchWork
      = 0 ∧
    (train_net cfg encode generate bce iou_of batchesOf r).events.countP isSave
      = 0 ∧
    (train_net cfg encode generate bce iou_of batchesOf r).epochsIterated = [] := by
  have hs : solverSetup cfg = .error (.typeError "unexpected keyword argument betas") := by
    unfold solverSetup
    rw [h]
    rfl
  refine ⟨?_, ?_, ?_, ?_⟩ <;> simp only [train_net, hs] <;>
    exact setupEvents_countP_zero cfg r _
      (fun _ _ => rfl) (fun _ _ => rfl) (fun _ => rfl) (fun _ => rfl)

/-- Witness for `sgd_policy_raises_typeerror` at the concrete `sgd`
configuration. -/
theorem sgd_policy_raises_typeerror_witness :
    (cfgSgd.POLICY = "sgd") ∧
    ((train_net cfgSgd encodeD generateD bceD iouD batchesD 0).err
       = some (.typeError "unexpected keyword argument betas") ∧
     (train_net cfgSgd encodeD generateD bceD iouD batchesD 0).events.countP isBatchWork
       = 0 ∧
     (train_net cfgSgd encodeD generateD bceD iouD batchesD 0).events.countP isSave
       = 0 ∧
     (train_net cfgSgd encodeD generateD bceD iouD batchesD 0).epochsIterated = []) :=
  ⟨rfl,
   sgd_policy_raises_typeerror cfgSgd encodeD generateD bceD iouD batchesD 0 rfl⟩

end Pix2Vox
